import Mathlib

/-!
Verification of the AskSIEM query-understanding and analytics pipeline
(src/app.py).  The Python source is shallowly embedded: every definition
below mirrors a function or table of `app.py` (class
NaturalLanguageProcessor, SecurityDataGenerator, AnalyticsEngine).

Modelling conventions, stated once:
- query strings are the already lower-cased text, as a `List Char`;
- Python `re.search` on the pattern shapes actually used by the source
  (literal runs, a greedy dot-star, a greedy whitespace run, one greedy
  digit capture group, an optional trailing character) is implemented by
  a small backtracking matcher with leftmost-then-greedy semantics;
- timestamps are instants measured in whole seconds (Int); the source
  keeps ISO-8601 strings and datetimes, whose ordering and hour/day
  arithmetic this models exactly, at one-second granularity;
- a pandas value_counts is a group-by-count in first-occurrence order
  followed by a stable sort by descending count; a pandas groupby
  presents its keys in ascending order;
- dicts whose keys are produced in a loop are association lists;
- a Python float mean is modelled as the exact rational mean;
- event fields the pipeline never inspects (id, destination_ip, message,
  bytes_sent, bytes_received) are elided from the event record.
-/

namespace AskSIEM

/-- First result of a fallible function over a list: models a Python
loop that returns on the first hit and falls through otherwise. -/
def firstSome {α β : Type} (f : α → Option β) : List α → Option β
  | [] => none
  | a :: as =>
    match f a with
    | some b => some b
    | none => firstSome f as

/-! ## Regular expressions of app.py

The patterns of `intent_patterns` and `entity_patterns` use only:
literal text, `.*`, `\s+`, one capture group `(\d+)`, and a trailing
optional character such as `s?`.  A pattern is a sequence of tokens. -/

inductive Tok : Type
  | lit : List Char → Tok
  | dotStar : Tok
  | ws1 : Tok
  | digits : Tok
  | optChar : Char → Tok
deriving DecidableEq

abbrev Pat := List Tok

/-- Literal pattern text. -/
def rlit (s : String) : Tok := Tok.lit s.toList

/-- Numeric value of a digit run, as Python int() of the capture. -/
def digitsVal (ds : List Char) : Nat :=
  ds.foldl (fun a c => a * 10 + (c.toNat - 48)) 0

/-- The list [m, m-1, ..., 1]: candidate lengths for a greedy
one-or-more repetition, longest first. -/
def downFrom1 (m : Nat) : List Nat :=
  (List.range m).map (fun i => m - i)

/-- Match a token sequence at the start of `s`; returns the value of the
capture group when the pattern has one.  Greedy with backtracking, as
Python `re`.  `.*` is modelled as matching any characters (the queries
are single lines, so the no-newline restriction of `.` is vacuous). -/
def matchHere : Pat → List Char → Option (Option Nat)
  | [], _ => some none
  | Tok.lit l :: ts, s =>
    if s.take l.length = l then matchHere ts (s.drop l.length) else none
  | Tok.dotStar :: ts, s =>
    firstSome (fun k => matchHere ts (s.drop k)) ((List.range (s.length + 1)).map (fun i => s.length - i))
  | Tok.ws1 :: ts, s =>
    firstSome (fun k => matchHere ts (s.drop k)) (downFrom1 ((s.takeWhile (fun c => c.isWhitespace)).length))
  | Tok.digits :: ts, s =>
    firstSome
      (fun k => (matchHere ts (s.drop k)).map (fun _ => some (digitsVal (s.take k))))
      (downFrom1 ((s.takeWhile (fun c => c.isDigit)).length))
  | Tok.optChar c :: ts, s =>
    match s with
    | [] => matchHere ts []
    | c2 :: rest =>
      if c2 = c then
        match matchHere ts rest with
        | some r => some r
        | none => matchHere ts (c2 :: rest)
      else matchHere ts (c2 :: rest)

/-- Python re.search: try every start position, leftmost first;
`some cap` on a match (cap is the capture group, when present). -/
def reSearch (p : Pat) (s : List Char) : Option (Option Nat) :=
  firstSome (fun i => matchHere p (s.drop i)) (List.range (s.length + 1))

/-! ## NaturalLanguageProcessor tables (app.py lines 54-108) -/

/-- self.intent_patterns: ordered intent table. -/
def intentPatterns : List (String × List Pat) :=
  [("failed_logins",
     [[rlit "failed", Tok.dotStar, rlit "login"],
      [rlit "login", Tok.dotStar, rlit "failed"],
      [rlit "authentication", Tok.dotStar, rlit "fail"],
      [rlit "failed", Tok.dotStar, rlit "auth"],
      [rlit "unsuccessful", Tok.dotStar, rlit "login"]]),
   ("successful_logins",
     [[rlit "successful", Tok.dotStar, rlit "login"],
      [rlit "login", Tok.dotStar, rlit "success"],
      [rlit "success", Tok.dotStar, rlit "auth"]]),
   ("brute_force",
     [[rlit "brute", Tok.dotStar, rlit "force"],
      [rlit "multiple", Tok.dotStar, rlit "failed"],
      [rlit "repeated", Tok.dotStar, rlit "login"]]),
   ("malware_detection",
     [[rlit "malware"], [rlit "virus"], [rlit "threat"], [rlit "malicious"]]),
   ("suspicious_activity",
     [[rlit "suspicious"], [rlit "unusual"], [rlit "anomaly"], [rlit "strange"]]),
   ("top_users",
     [[rlit "top", Tok.dotStar, rlit "user"],
      [rlit "most", Tok.dotStar, rlit "active"],
      [rlit "user", Tok.dotStar, rlit "activity"]]),
   ("geographic_analysis",
     [[rlit "country"], [rlit "geographic"], [rlit "location"],
      [rlit "region"], [rlit "india"], [rlit "INDIA"]]),
   ("time_analysis",
     [[rlit "timeline"], [rlit "overtime"], [rlit "trend"],
      [rlit "hourly"], [rlit "daily"]])]

/-- self.entity_patterns time_range list. -/
def timeRangePatterns : List (Pat × String) :=
  [([rlit "last", Tok.ws1, Tok.digits, Tok.ws1, rlit "hour", Tok.optChar 's'], "hours"),
   ([rlit "last", Tok.ws1, Tok.digits, Tok.ws1, rlit "day", Tok.optChar 's'], "days"),
   ([rlit "last", Tok.ws1, Tok.digits, Tok.ws1, rlit "week", Tok.optChar 's'], "weeks"),
   ([rlit "today"], "today"),
   ([rlit "yesterday"], "yesterday"),
   ([rlit "past", Tok.ws1, rlit "week"], "last_week"),
   ([rlit "past", Tok.ws1, rlit "month"], "last_month")]

/-- self.entity_patterns severity list. -/
def severityPatterns : List (Pat × String) :=
  [([rlit "critical"], "critical"), ([rlit "high"], "high"),
   ([rlit "medium"], "medium"), ([rlit "low"], "low")]

/-- self.entity_patterns count list (both values are the key top_n). -/
def countPatterns : List (Pat × String) :=
  [([rlit "top", Tok.ws1, Tok.digits], "top_n"),
   ([rlit "first", Tok.ws1, Tok.digits], "top_n")]

/-- self.entity_patterns country list. -/
def countryPatterns : List (Pat × String) :=
  [([rlit "india"], "IN"), ([rlit "usa"], "US"),
   ([rlit "china"], "CN"), ([rlit "russia"], "RU")]

/-- NaturalLanguageProcessor._detect_intent (lines 130-136): first
intent, in table order, any of whose patterns matches; general_search
otherwise. -/
def detectIntent (q : List Char) : String :=
  (firstSome
    (fun ip => if ip.2.any (fun p => (reSearch p q).isSome) then some ip.1 else none)
    intentPatterns).getD "general_search"

/-- entities time_range value. -/
structure TimeRange where
  unit : String
  value : Nat
deriving DecidableEq, Repr

/-- The entities dict built by _extract_entities.  The always-empty,
never-read filters sub-dict is elided.  event_type is carried because
get_filtered_data probes the dict for that key (absent key = none). -/
structure Entities where
  time_range : TimeRange
  severity : Option String
  top_n : Nat
  country : Option String
  event_type : Option String
deriving DecidableEq, Repr

/-- NaturalLanguageProcessor._extract_entities (lines 138-180).  Each
category takes the first matching pattern; defaults otherwise.  For the
numeric time units the source reads the capture when the pattern has a
group (all three number patterns do, and a match always captures, so
the getD 1 arm is unreachable); units outside hours/days/weeks get
value 1.  Both count patterns capture digits, so a first count match
always carries a number (the unreachable capture-less arm keeps the
default 10). -/
def extractEntities (q : List Char) : Entities :=
  let tr : TimeRange :=
    match firstSome (fun pu => (reSearch pu.1 q).map (fun cap => (pu.2, cap))) timeRangePatterns with
    | some (unit, cap) =>
      if unit = "hours" ∨ unit = "days" ∨ unit = "weeks" then
        { unit := unit, value := cap.getD 1 }
      else
        { unit := unit, value := 1 }
    | none => { unit := "hours", value := 24 }
  let sev : Option String :=
    firstSome (fun ps => if (reSearch ps.1 q).isSome then some ps.2 else none) severityPatterns
  let ctry : Option String :=
    firstSome (fun pc => if (reSearch pc.1 q).isSome then some pc.2 else none) countryPatterns
  let topN : Nat :=
    match firstSome (fun pc => reSearch pc.1 q) countPatterns with
    | some (some n) => n
    | some none => 10
    | none => 10
  { time_range := tr, severity := sev, top_n := topN, country := ctry, event_type := none }

/-- NaturalLanguageProcessor._suggest_chart_types (lines 182-196):
static lookup keyed by intent (the entities argument is unused). -/
def suggestChartTypes (intent : String) : List String :=
  (([("failed_logins", ["timeline", "top_users", "geo_distribution"]),
     ("successful_logins", ["timeline", "top_users", "geo_distribution"]),
     ("brute_force", ["timeline", "top_ips", "severity_distribution"]),
     ("malware_detection", ["event_types", "severity_distribution", "timeline"]),
     ("suspicious_activity", ["timeline", "event_types", "risk_distribution"]),
     ("top_users", ["user_activity", "bar_chart"]),
     ("geographic_analysis", ["geo_distribution", "world_map"]),
     ("time_analysis", ["timeline", "heatmap"]),
     ("general_search", ["timeline", "event_types", "top_ips"])] :
      List (String × List String)).find?
    (fun kv => kv.1 = intent)).elim ["timeline", "event_types"] (fun kv => kv.2)

/-- ParsedQuery, the result of parse_query (lines 110-128). -/
structure ParsedQuery where
  intent : String
  entities : Entities
  chart_types : List String
  original_query : String
deriving DecidableEq, Repr

/-- NaturalLanguageProcessor.parse_query on already lower-cased text. -/
def parseQuery (q : List Char) (original : String) : ParsedQuery :=
  let intent := detectIntent q
  { intent := intent
    entities := extractEntities q
    chart_types := suggestChartTypes intent
    original_query := original }

/-! ## SecurityDataGenerator: events and the Event Filter
(app.py lines 285-298, 307-351) -/

/-- One security event.  Only the fields the pipeline inspects are kept
(timestamp as an instant in seconds; see the header conventions). -/
structure Event where
  timestamp : Int
  event_type : String
  source_ip : String
  user : String
  severity : String
  country : String
  risk_score : Int
deriving DecidableEq, Repr

/-- The [cutoff, now] window computed by _filter_by_time (lines
327-343) for a time_range, given the current instant.  today rounds
now down to midnight; yesterday is the previous whole day up to one
second before midnight; unrecognized units default to 24 hours. -/
def timeWindow (tr : TimeRange) (now : Int) : Int × Int :=
  if tr.unit = "hours" then (now - 3600 * (tr.value : Int), now)
  else if tr.unit = "days" then (now - 86400 * (tr.value : Int), now)
  else if tr.unit = "weeks" then (now - 604800 * (tr.value : Int), now)
  else if tr.unit = "today" then (now - now.emod 86400, now)
  else if tr.unit = "yesterday" then
    ((now - now.emod 86400) - 86400, (now - now.emod 86400) - 1)
  else (now - 3600 * 24, now)

/-- SecurityDataGenerator._filter_by_time (lines 327-351): keep events
whose timestamp lies in the inclusive window. -/
def filterByTime (events : List Event) (tr : TimeRange) (now : Int) : List Event :=
  events.filter (fun e =>
    decide ((timeWindow tr now).1 ≤ e.timestamp ∧ e.timestamp ≤ (timeWindow tr now).2))

/-- One equality-filter step of get_filtered_data: Python keeps the
list unchanged when the dict value is absent or falsy (the empty
string), and filters on equality otherwise. -/
def applyEq (field : Event → String) (v : Option String) (l : List Event) : List Event :=
  match v with
  | some s => if s = "" then l else l.filter (fun e => decide (field e = s))
  | none => l

/-- SecurityDataGenerator.get_filtered_data (lines 307-325): time
filter, then severity, country and event_type equality filters in that
order.  The event collection (self.sample_data) and the current
instant are explicit arguments. -/
def getFilteredData (sample : List Event) (qc : Entities) (now : Int) : List Event :=
  applyEq (fun e => e.event_type) qc.event_type
    (applyEq (fun e => e.country) qc.country
      (applyEq (fun e => e.severity) qc.severity
        (filterByTime sample qc.time_range now)))

/-! ## Grouping and counting (pandas value_counts / groupby) -/

/-- Distinct values of a list in first-occurrence order: the key order
a pandas hash table produces while counting. -/
def dedupFirst : List String → List String
  | [] => []
  | a :: as => a :: (dedupFirst as).filter (fun b => decide (b ≠ a))

/-- Group-by-count over a key, keys in first-occurrence order. -/
def countOcc (key : Event → String) (l : List Event) : List (String × Nat) :=
  (dedupFirst (l.map key)).map
    (fun k => (k, (l.filter (fun e => decide (key e = k))).length))

/-- Insert a (key, count) pair into a descending-by-count list, before
the first entry of equal or smaller count (stability: the pair being
inserted came earlier in the original order). -/
def insertDesc (x : String × Nat) : List (String × Nat) → List (String × Nat)
  | [] => [x]
  | y :: ys => if x.2 < y.2 then y :: insertDesc x ys else x :: y :: ys

/-- Stable sort by descending count. -/
def sortDesc : List (String × Nat) → List (String × Nat)
  | [] => []
  | x :: xs => insertDesc x (sortDesc xs)

/-- pandas Series.value_counts: counts by first occurrence, then a
stable sort by descending count (ties keep first-occurrence order). -/
def valueCounts (key : Event → String) (l : List Event) : List (String × Nat) :=
  sortDesc (countOcc key l)

/-- Lexicographic comparison of character lists by code point: the
string order of Python (and of pandas string keys) on this data. -/
def charListLt : List Char → List Char → Bool
  | [], [] => false
  | [], _ :: _ => true
  | _ :: _, [] => false
  | a :: as, b :: bs =>
    if a.toNat < b.toNat then true
    else if b.toNat < a.toNat then false
    else charListLt as bs

/-- String order by code points. -/
def strLt (a b : String) : Bool := charListLt a.toList b.toList

/-- Insert a pair into an ascending-by-key list. -/
def insertKeyAsc (x : String × Nat) : List (String × Nat) → List (String × Nat)
  | [] => [x]
  | y :: ys => if strLt y.1 x.1 then y :: insertKeyAsc x ys else x :: y :: ys

/-- Sort by ascending key: the key order of pandas groupby(...).size(). -/
def sortKeysAsc : List (String × Nat) → List (String × Nat)
  | [] => []
  | x :: xs => insertKeyAsc x (sortKeysAsc xs)

/-- Dict lookup with default, as Python d.get(k, default). -/
def lookupD (m : List (String × Nat)) (k : String) (d : Nat) : Nat :=
  match m.find? (fun p => decide (p.1 = k)) with
  | some p => p.2
  | none => d

/-! ## AnalyticsEngine analysis (app.py lines 470-587) -/

/-- Hour-aligned bucket start of an instant (resample to 1H). -/
def floorHour (t : Int) : Int := t - t.emod 3600

/-- Hourly timeline: labels and bucket counts. -/
structure Timeline where
  labels : List Int
  values : List Nat
deriving DecidableEq, Repr

/-- AnalyticsEngine._analyze_timeline (lines 538-547): calendar-hour
aligned buckets from the floor of the earliest timestamp to the floor
of the latest, empty buckets included; empty input yields the empty
timeline (the except fallback of the source). -/
def analyzeTimeline (events : List Event) : Timeline :=
  match events with
  | [] => { labels := [], values := [] }
  | e0 :: _ =>
    let lo := floorHour (events.foldl (fun a e => min a e.timestamp) e0.timestamp)
    let hi := floorHour (events.foldl (fun a e => max a e.timestamp) e0.timestamp)
    let n := ((hi - lo) / 3600).toNat + 1
    let labels := (List.range n).map (fun i => lo + 3600 * (i : Int))
    { labels := labels
      values := labels.map (fun l => (events.filter (fun e => decide (floorHour e.timestamp = l))).length) }

/-- First label whose bucket count is maximal (pandas idxmax). -/
def peakLabel (labels : List Int) (values : List Nat) : Option Int :=
  let m := values.foldl (fun a v => max a v) 0
  ((labels.zip values).find? (fun p => decide (p.2 = m))).map (fun p => p.1)

/-- Result of _analyze_failed_logins; the empty peak hour is none. -/
structure FailedLoginAnalysis where
  total_failed : Nat
  unique_users : Nat
  unique_ips : Nat
  peak_hour : Option Int
deriving DecidableEq, Repr

/-- AnalyticsEngine._analyze_failed_logins (lines 549-566). -/
def analyzeFailedLogins (events : List Event) : FailedLoginAnalysis :=
  let failed := events.filter (fun e => decide (e.event_type = "failed_login"))
  match failed with
  | [] => { total_failed := 0, unique_users := 0, unique_ips := 0, peak_hour := none }
  | _ :: _ =>
    let tl := analyzeTimeline failed
    { total_failed := failed.length
      unique_users := (dedupFirst (failed.map (fun e => e.user))).length
      unique_ips := (dedupFirst (failed.map (fun e => e.source_ip))).length
      peak_hour := peakLabel tl.labels tl.values }

/-- Result of _analyze_brute_force. -/
structure BruteForceAnalysis where
  suspicious_ips_count : Nat
  total_attempts : Nat
  suspicious_ips : List (String × Nat)
deriving DecidableEq, Repr

/-- AnalyticsEngine._analyze_brute_force (lines 568-578): failed_login
and brute_force_attempt events grouped by source_ip; IPs with a count
strictly above 5 are the suspicious ones. -/
def analyzeBruteForce (events : List Event) : BruteForceAnalysis :=
  let bf := events.filter (fun e =>
    decide (e.event_type = "failed_login" ∨ e.event_type = "brute_force_attempt"))
  let suspicious := (sortKeysAsc (countOcc (fun e => e.source_ip) bf)).filter
    (fun p => decide (5 < p.2))
  { suspicious_ips_count := suspicious.length
    total_attempts := bf.length
    suspicious_ips := suspicious }

/-- Result of _analyze_geographic. -/
structure GeoAnalysis where
  total_countries : Nat
  top_country : String
  top_country_count : Nat
  india_events : Nat
deriving DecidableEq, Repr

/-- AnalyticsEngine._analyze_geographic (lines 580-587).  The
membership test before counting IN events equals a plain count. -/
def analyzeGeographic (events : List Event) : GeoAnalysis :=
  let cc := valueCounts (fun e => e.country) events
  { total_countries := (dedupFirst (events.map (fun e => e.country))).length
    top_country := (cc.head?.map (fun p => p.1)).getD ""
    top_country_count := (cc.head?.map (fun p => p.2)).getD 0
    india_events := (events.filter (fun e => decide (e.country = "IN"))).length }

/-- risk_scores block; the float mean is the exact rational mean. -/
structure RiskScores where
  average : Rat
  max : Int
  min : Int
deriving DecidableEq, Repr

/-- The analysis dict of _analyze_events.  Optional dict keys are
Option fields; the empty-set time_range markers (empty strings) are
none. -/
structure Analysis where
  total_events : Nat
  time_range : Option (Int × Int)
  event_types : List (String × Nat)
  severity_distribution : List (String × Nat)
  top_users : List (String × Nat)
  top_source_ips : List (String × Nat)
  countries : List (String × Nat)
  risk_scores : RiskScores
  timeline : Timeline
  failed_login_analysis : Option FailedLoginAnalysis
  brute_force_analysis : Option BruteForceAnalysis
  geographic_analysis : Option GeoAnalysis
deriving DecidableEq, Repr

/-- AnalyticsEngine._analyze_events (lines 470-536).  Empty input
short-circuits to the zero-valued record.  event_type, user and
source_ip distributions take the head(10) of value_counts; severity
and country distributions are the full value_counts.  Exactly one
intent-specific block is attached, by the intent of the parsed
query (the source's elif chain over three distinct intent strings). -/
def analyzeEvents (events : List Event) (pq : ParsedQuery) : Analysis :=
  match events with
  | [] =>
    { total_events := 0
      time_range := none
      event_types := []
      severity_distribution := []
      top_users := []
      top_source_ips := []
      countries := []
      risk_scores := { average := 0, max := 0, min := 0 }
      timeline := { labels := [], values := [] }
      failed_login_analysis := none
      brute_force_analysis := none
      geographic_analysis := none }
  | e0 :: _ =>
    { total_events := events.length
      time_range := some
        (events.foldl (fun a e => min a e.timestamp) e0.timestamp,
         events.foldl (fun a e => max a e.timestamp) e0.timestamp)
      event_types := (valueCounts (fun e => e.event_type) events).take 10
      severity_distribution := valueCounts (fun e => e.severity) events
      top_users := (valueCounts (fun e => e.user) events).take 10
      top_source_ips := (valueCounts (fun e => e.source_ip) events).take 10
      countries := valueCounts (fun e => e.country) events
      risk_scores :=
        { average := ((events.foldl (fun a e => a + e.risk_score) 0 : Int) : Rat) / ((events.length : Nat) : Rat)
          max := events.foldl (fun a e => max a e.risk_score) e0.risk_score
          min := events.foldl (fun a e => min a e.risk_score) e0.risk_score }
      timeline := analyzeTimeline events
      failed_login_analysis :=
        if pq.intent = "failed_logins" then some (analyzeFailedLogins events) else none
      brute_force_analysis :=
        if pq.intent = "brute_force" then some (analyzeBruteForce events) else none
      geographic_analysis :=
        if pq.intent = "geographic_analysis" then some (analyzeGeographic events) else none }

/-! ## Insight Generator (app.py lines 589-644) -/

/-- One insight record. -/
structure Insight where
  type : String
  title : String
  message : String
  recommendation : String
deriving DecidableEq, Repr

/-- AnalyticsEngine._generate_insights (lines 589-644): the fixed rule
sequence.  Empty result short-circuits to the single No Events Found
insight; otherwise the high-risk, failed-login, brute-force and India
rules each append at most one insight, in that order: the loop that
conditionally appends one record per rule is written as the
concatenation of one guarded singleton per rule.  A nested pair of
Python ifs (intent check, then threshold) is one conjunctive guard.
The dict gets with defaults of the source are the getD forms below. -/
def generateInsights (a : Analysis) (pq : ParsedQuery) : List Insight :=
  if a.total_events = 0 then
    [{ type := "info"
       title := "No Events Found"
       message := "No security events match your current query criteria."
       recommendation := "Try broadening your search criteria or adjusting the time range." }]
  else
    let highRisk := lookupD a.severity_distribution "high" 0 +
      lookupD a.severity_distribution "critical" 0
    let fa := a.failed_login_analysis.getD
      { total_failed := 0, unique_users := 0, unique_ips := 0, peak_hour := none }
    let ba := a.brute_force_analysis.getD
      { suspicious_ips_count := 0, total_attempts := 0, suspicious_ips := [] }
    let geoIndia := (a.geographic_analysis.map (fun g => g.india_events)).getD 0
    (if 0 < highRisk then
      [{ type := "warning"
         title := "High Risk Events Detected"
         message := "Found " ++ toString highRisk ++ " high/critical severity events requiring attention."
         recommendation := "Review these events immediately for potential security incidents." }]
     else [])
    ++ (if pq.intent = "failed_logins" ∧ 50 < fa.total_failed then
      [{ type := "danger"
         title := "Elevated Failed Login Activity"
         message := "Detected " ++ toString fa.total_failed ++
           " failed login attempts from " ++ toString fa.unique_ips ++ " unique IPs."
         recommendation := "Investigate source IPs and consider implementing account lockout policies." }]
     else [])
    ++ (if pq.intent = "brute_force" ∧ 0 < ba.suspicious_ips_count then
      [{ type := "danger"
         title := "Potential Brute Force Attacks"
         message := "Identified " ++ toString ba.suspicious_ips_count ++
           " IPs with suspicious login patterns."
         recommendation := "Block these IPs and review authentication logs for compromised accounts." }]
     else [])
    ++ (if 100 < geoIndia then
      [{ type := "info"
         title := "High Activity from India"
         message := "Significant security events (" ++ toString geoIndia ++ ") originating from India."
         recommendation := "Monitor Indian IP ranges for suspicious patterns." }]
     else [])

/-! ## Summary Generator (app.py lines 646-693) -/

/-- Two-digit zero padding, as strftime field widths. -/
def fmt2 (n : Nat) : String :=
  if n < 10 then "0" ++ toString n else toString n

/-- strftime of a UTC instant with format %I:%M %p (zero-padded
12-hour clock, minutes, AM/PM). -/
def fmtClock12 (t : Int) : String :=
  let secOfDay := (t.emod 86400).toNat
  let h24 := secOfDay / 3600
  let m := (secOfDay % 3600) / 60
  let h12 := if h24 % 12 = 0 then 12 else h24 % 12
  fmt2 h12 ++ ":" ++ fmt2 m ++ " " ++ (if h24 < 12 then "AM" else "PM")

/-- The time phrase of _generate_summary (lines 656-660). -/
def timePhrase (tr : TimeRange) : String :=
  if tr.unit = "yesterday" then "yesterday"
  else "in the last " ++ toString tr.value ++ " " ++ tr.unit

/-- AnalyticsEngine._generate_summary (lines 646-693): one template per
intent, with a generic fallback. -/
def generateSummary (a : Analysis) (pq : ParsedQuery) : String :=
  if a.total_events = 0 then
    "No security events found matching your query criteria."
  else
    let tp := timePhrase pq.entities.time_range
    if pq.intent = "failed_logins" then
      let fa := a.failed_login_analysis.getD
        { total_failed := 0, unique_users := 0, unique_ips := 0, peak_hour := none }
      let peakTime :=
        match fa.peak_hour with
        | some t => fmtClock12 t
        | none => "unknown time"
      "Found " ++ toString fa.total_failed ++ " failed login attempts " ++ tp ++
        " across " ++ toString fa.unique_users ++
        " unique users. Peak activity occurred around " ++ peakTime ++ "."
    else if pq.intent = "successful_logins" then
      let sl := lookupD a.event_types "successful_login" 0
      let topUser := (a.top_users.head?.map (fun p => p.1)).getD "N/A"
      let topCount := (a.top_users.head?.map (fun p => p.2)).getD 0
      "Detected " ++ toString sl ++ " successful logins " ++ tp ++ " from " ++
        toString a.top_users.length ++ " unique users. Most active user was " ++
        topUser ++ " with " ++ toString topCount ++ " sessions."
    else if pq.intent = "brute_force" then
      let ba := a.brute_force_analysis.getD
        { suspicious_ips_count := 0, total_attempts := 0, suspicious_ips := [] }
      "Identified " ++ toString ba.suspicious_ips_count ++
        " suspicious IPs with potential brute force activity " ++ tp ++
        ". Total of " ++ toString ba.total_attempts ++ " authentication attempts detected."
    else if pq.intent = "geographic_analysis" then
      let topCountry := (a.countries.head?.map (fun p => p.1)).getD "N/A"
      let topCount := (a.countries.head?.map (fun p => p.2)).getD 0
      let indiaCount := lookupD a.countries "IN" 0
      "Geographic analysis " ++ tp ++ " shows events from " ++
        toString a.countries.length ++ " countries. Top country: " ++ topCountry ++
        " with " ++ toString topCount ++ " events. India contributed " ++
        toString indiaCount ++ " events."
    else
      let topType := (a.event_types.head?.map (fun p => p.1)).getD "N/A"
      let topCount := (a.event_types.head?.map (fun p => p.2)).getD 0
      "Found " ++ toString a.total_events ++ " security events " ++ tp ++
        ". Top event type: " ++ topType ++ " with " ++ toString topCount ++
        " occurrences. Events recorded from " ++ toString a.countries.length ++ " countries."

/-! ## Chart Data Preparer (app.py lines 695-727) -/

/-- One chart payload: the timeline keeps instants as labels, the
categorical charts keep strings. -/
inductive ChartEntry : Type
  | timeSeries : List Int → List Nat → ChartEntry
  | catSeries : List String → List Nat → ChartEntry
deriving DecidableEq, Repr

/-- Write a key of the chart_data dict (replace an existing key, append
a new one). -/
def upsert (m : List (String × ChartEntry)) (k : String) (v : ChartEntry) :
    List (String × ChartEntry) :=
  if m.any (fun p => p.1 = k) then m.map (fun p => if p.1 = k then (k, v) else p)
  else m ++ [(k, v)]

/-- AnalyticsEngine._prepare_chart_data (lines 695-727): at most the
first 4 requested chart types; unrecognized types are skipped.  The
key-presence guards of the source are always true, because the
analysis dict always carries these keys (including in the empty-set
short circuit). -/
def prepareChartData (a : Analysis) (chartTypes : List String) :
    List (String × ChartEntry) :=
  (chartTypes.take 4).foldl
    (fun cd ct =>
      if ct = "timeline" then
        upsert cd "timeline" (ChartEntry.timeSeries a.timeline.labels a.timeline.values)
      else if ct = "event_types" then
        upsert cd "event_types"
          (ChartEntry.catSeries (a.event_types.map (fun p => p.1)) (a.event_types.map (fun p => p.2)))
      else if ct = "severity_distribution" then
        upsert cd "severity_distribution"
          (ChartEntry.catSeries (a.severity_distribution.map (fun p => p.1))
            (a.severity_distribution.map (fun p => p.2)))
      else if ct = "top_users" then
        upsert cd "top_users"
          (ChartEntry.catSeries ((a.top_users.map (fun p => p.1)).take 10)
            ((a.top_users.map (fun p => p.2)).take 10))
      else if ct = "geo_distribution" then
        upsert cd "geo_distribution"
          (ChartEntry.catSeries ((a.countries.map (fun p => p.1)).take 15)
            ((a.countries.map (fun p => p.2)).take 15))
      else cd)
    []

/-! ## AnalyticsEngine.process_query (app.py lines 420-449) -/

/-- The results object.  processing_time (a random string) and the
constant data_source are elided; _convert_to_serializable is the
identity on this model. -/
structure QueryResult where
  summary : String
  insights : List Insight
  chart_data : List (String × ChartEntry)
  analysis : Analysis
  table_data : List Event
  total_events : Nat
  sampled_events : Nat
deriving DecidableEq, Repr

/-- AnalyticsEngine.process_query: filter, analyze, then the three
generators; the table sample is the first 100 filtered events. -/
def processQuery (sample : List Event) (pq : ParsedQuery) (now : Int) : QueryResult :=
  let filtered := getFilteredData sample pq.entities now
  let analysis := analyzeEvents filtered pq
  { summary := generateSummary analysis pq
    insights := generateInsights analysis pq
    chart_data := prepareChartData analysis pq.chart_types
    analysis := analysis
    table_data := filtered.take 100
    total_events := filtered.length
    sampled_events := min 100 filtered.length }

/-! ## Concrete inputs used by example evaluations -/

/-- Event literal helper. -/
def mkEv (ts : Int) (et ip user sev c : String) (risk : Int) : Event :=
  { timestamp := ts, event_type := et, source_ip := ip, user := user,
    severity := sev, country := c, risk_score := risk }

/-- A parsed query with no filters and the general_search intent. -/
def pqGeneral : ParsedQuery :=
  { intent := "general_search"
    entities := { time_range := { unit := "hours", value := 24 }, severity := none,
                  top_n := 10, country := none, event_type := none }
    chart_types := ["timeline", "event_types", "top_ips"]
    original_query := "" }

/-- Eleven events carrying eleven distinct country codes. -/
def c1Events : List Event :=
  (List.range 11).map (fun i =>
    mkEv (i : Int) "failed_login" "10.0.0.1" "u1" "medium" ("C" ++ toString i) 50)

/-- One low-severity event from India. -/
def inEv : Event := mkEv 0 "successful_login" "103.1.1.1" "u1" "low" "IN" 10

/-- Six failed logins from one address and five brute-force attempts
from another. -/
def c4Events : List Event :=
  (List.range 6).map (fun i => mkEv (i : Int) "failed_login" "1.1.1.1" "u" "medium" "US" 50)
    ++ (List.range 5).map (fun i => mkEv (i : Int) "brute_force_attempt" "2.2.2.2" "u" "high" "US" 70)

/-! ## Helper lemmas: first-hit search, grouping, sorting -/

theorem firstSome_eq_none {α β : Type} (f : α → Option β) (l : List α)
    (h : ∀ x ∈ l, f x = none) : firstSome f l = none := by
  induction l with
  | nil => rfl
  | cons a as ih =>
    have ha : f a = none := h a (List.mem_cons_self a as)
    simp only [firstSome, ha]
    exact ih (fun x hx => h x (List.mem_cons_of_mem a hx))

theorem firstSome_append_some {α β : Type} (f : α → Option β) (pre : List α) (a : α)
    (post : List α) (b : β) (hpre : ∀ x ∈ pre, f x = none) (ha : f a = some b) :
    firstSome f (pre ++ a :: post) = some b := by
  induction pre with
  | nil => simp only [List.nil_append, firstSome, ha]
  | cons x xs ih =>
    have hx : f x = none := hpre x (List.mem_cons_self x xs)
    simp only [List.cons_append, firstSome, hx]
    exact ih (fun y hy => hpre y (List.mem_cons_of_mem x hy))

theorem mem_dedupFirst (b : String) (l : List String) : b ∈ dedupFirst l ↔ b ∈ l := by
  induction l with
  | nil => simp [dedupFirst]
  | cons a as ih =>
    simp only [dedupFirst, List.mem_cons, List.mem_filter]
    constructor
    · rintro (rfl | ⟨hb, _⟩)
      · exact Or.inl rfl
      · exact Or.inr (ih.mp hb)
    · rintro (rfl | hb)
      · exact Or.inl rfl
      · by_cases hba : b = a
        · exact Or.inl hba
        · exact Or.inr ⟨ih.mpr hb, by simp [hba]⟩

theorem nodup_dedupFirst (l : List String) : (dedupFirst l).Nodup := by
  induction l with
  | nil => simp [dedupFirst]
  | cons a as ih =>
    simp only [dedupFirst, List.nodup_cons]
    refine ⟨?_, ih.filter _⟩
    simp [List.mem_filter]

theorem mem_countOcc (key : Event → String) (l : List Event) (k : String) (c : Nat) :
    (k, c) ∈ countOcc key l ↔
      k ∈ l.map key ∧ c = (l.filter (fun e => decide (key e = k))).length := by
  rw [countOcc]
  constructor
  · intro h
    obtain ⟨k2, hk2, heq⟩ := List.mem_map.mp h
    rw [Prod.mk.injEq] at heq
    obtain ⟨rfl, h2⟩ := heq
    exact ⟨(mem_dedupFirst k2 (l.map key)).mp hk2, h2.symm⟩
  · rintro ⟨hk, hc⟩
    exact List.mem_map.mpr ⟨k, (mem_dedupFirst k (l.map key)).mpr hk, by rw [hc]⟩

theorem keys_countOcc (key : Event → String) (l : List Event) :
    (countOcc key l).map Prod.fst = dedupFirst (l.map key) := by
  rw [countOcc, List.map_map]
  exact List.map_id _

theorem insertDesc_perm (x : String × Nat) (l : List (String × Nat)) :
    List.Perm (insertDesc x l) (x :: l) := by
  induction l with
  | nil => exact List.Perm.refl _
  | cons y ys ih =>
    simp only [insertDesc]
    by_cases h : x.2 < y.2
    · rw [if_pos h]
      exact List.Perm.trans (List.Perm.cons y ih) (List.Perm.swap x y ys)
    · rw [if_neg h]

theorem sortDesc_perm (l : List (String × Nat)) : List.Perm (sortDesc l) l := by
  induction l with
  | nil => exact List.Perm.refl _
  | cons x xs ih =>
    exact List.Perm.trans (insertDesc_perm x (sortDesc xs)) (List.Perm.cons x ih)

theorem insertKeyAsc_perm (x : String × Nat) (l : List (String × Nat)) :
    List.Perm (insertKeyAsc x l) (x :: l) := by
  induction l with
  | nil => exact List.Perm.refl _
  | cons y ys ih =>
    simp only [insertKeyAsc]
    by_cases h : strLt y.1 x.1 = true
    · rw [if_pos h]
      exact List.Perm.trans (List.Perm.cons y ih) (List.Perm.swap x y ys)
    · rw [if_neg h]

theorem sortKeysAsc_perm (l : List (String × Nat)) : List.Perm (sortKeysAsc l) l := by
  induction l with
  | nil => exact List.Perm.refl _
  | cons x xs ih =>
    exact List.Perm.trans (insertKeyAsc_perm x (sortKeysAsc xs)) (List.Perm.cons x ih)

theorem insertDesc_sorted (x : String × Nat) (l : List (String × Nat))
    (h : l.Pairwise (fun a b => b.2 ≤ a.2)) :
    (insertDesc x l).Pairwise (fun a b => b.2 ≤ a.2) := by
  induction l with
  | nil => simp [insertDesc]
  | cons y ys ih =>
    rw [List.pairwise_cons] at h
    obtain ⟨hy, hys⟩ := h
    simp only [insertDesc]
    by_cases hx : x.2 < y.2
    · rw [if_pos hx, List.pairwise_cons]
      refine ⟨?_, ih hys⟩
      intro z hz
      have hz2 : z = x ∨ z ∈ ys := by
        simpa using (insertDesc_perm x ys).mem_iff.mp hz
      rcases hz2 with rfl | hz2
      · exact le_of_lt hx
      · exact hy z hz2
    · rw [if_neg hx, List.pairwise_cons]
      refine ⟨?_, List.pairwise_cons.mpr ⟨hy, hys⟩⟩
      intro z hz
      rcases List.mem_cons.mp hz with rfl | hz2
      · exact le_of_not_lt hx
      · exact le_trans (hy z hz2) (le_of_not_lt hx)

theorem sortDesc_sorted (l : List (String × Nat)) :
    (sortDesc l).Pairwise (fun a b => b.2 ≤ a.2) := by
  induction l with
  | nil => simp [sortDesc]
  | cons x xs ih => exact insertDesc_sorted x (sortDesc xs) ih

theorem valueCounts_sorted (key : Event → String) (l : List Event) :
    (valueCounts key l).Pairwise (fun a b => b.2 ≤ a.2) :=
  sortDesc_sorted (countOcc key l)

theorem valueCounts_length (key : Event → String) (l : List Event) :
    (valueCounts key l).length = (dedupFirst (l.map key)).length := by
  rw [valueCounts, (sortDesc_perm (countOcc key l)).length_eq, countOcc,
    List.length_map]

theorem applyEq_sublist (f : Event → String) (v : Option String) (l : List Event) :
    List.Sublist (applyEq f v l) l := by
  cases v with
  | none => exact List.Sublist.refl l
  | some s =>
    show List.Sublist (if s = "" then l else l.filter (fun e => decide (f e = s))) l
    by_cases h : s = ""
    · rw [if_pos h]
    · rw [if_neg h]
      exact List.filter_sublist l

theorem mem_applyEq (f : Event → String) (v : Option String) (l : List Event) (e : Event)
    (h : e ∈ applyEq f v l) : e ∈ l ∧ ∀ s, v = some s → s ≠ "" → f e = s := by
  cases v with
  | none => exact ⟨h, fun s hs => by cases hs⟩
  | some s0 =>
    have h1 : e ∈ (if s0 = "" then l else l.filter (fun x => decide (f x = s0))) := h
    by_cases h0 : s0 = ""
    · rw [if_pos h0] at h1
      refine ⟨h1, fun s hs hne => ?_⟩
      injection hs with hss
      rw [← hss, h0] at hne
      exact absurd rfl hne
    · rw [if_neg h0] at h1
      have h2 := List.mem_filter.mp h1
      refine ⟨h2.1, fun s hs _ => ?_⟩
      injection hs with hss
      rw [← hss]
      exact of_decide_eq_true h2.2

theorem applyEq_eq_self (f : Event → String) (v : Option String) (l : List Event)
    (h : ∀ e ∈ l, ∀ s, v = some s → s ≠ "" → f e = s) : applyEq f v l = l := by
  cases v with
  | none => rfl
  | some s0 =>
    show (if s0 = "" then l else l.filter (fun x => decide (f x = s0))) = l
    by_cases h0 : s0 = ""
    · rw [if_pos h0]
    · rw [if_neg h0]
      exact List.filter_eq_self.mpr (fun e he => decide_eq_true (h e he s0 rfl h0))

theorem mem_filterByTime (events : List Event) (tr : TimeRange) (now : Int) (e : Event)
    (h : e ∈ filterByTime events tr now) :
    e ∈ events ∧ (timeWindow tr now).1 ≤ e.timestamp
      ∧ e.timestamp ≤ (timeWindow tr now).2 := by
  have h2 := List.mem_filter.mp h
  exact ⟨h2.1, of_decide_eq_true h2.2⟩

theorem filterByTime_eq_self (events : List Event) (tr : TimeRange) (now : Int)
    (h : ∀ e ∈ events, (timeWindow tr now).1 ≤ e.timestamp
      ∧ e.timestamp ≤ (timeWindow tr now).2) :
    filterByTime events tr now = events :=
  List.filter_eq_self.mpr (fun e he => decide_eq_true (h e he))

/-! ## Claim theorems -/

/-- C3: over the empty filtered event set the Aggregation Engine
returns (rather than raising) the zero-valued record: total_events 0,
all five distributions empty, risk average = max = min = 0, empty
timeline; and the Insight Generator returns exactly one info insight
titled No Events Found, with no further rules applied. -/
theorem C3_empty_set_zero_structures : ∀ pq : ParsedQuery,
    analyzeEvents [] pq =
      { total_events := 0, time_range := none, event_types := [],
        severity_distribution := [], top_users := [], top_source_ips := [],
        countries := [], risk_scores := { average := 0, max := 0, min := 0 },
        timeline := { labels := [], values := [] },
        failed_login_analysis := none, brute_force_analysis := none,
        geographic_analysis := none }
    ∧ generateInsights (analyzeEvents [] pq) pq =
        [{ type := "info", title := "No Events Found",
           message := "No security events match your current query criteria.",
           recommendation := "Try broadening your search criteria or adjusting the time range." }] :=
  fun _ => ⟨rfl, rfl⟩

/-- C9: the extracted top_n entity has no effect on the analytics
output: two parsed queries identical except for entities.top_n give
identical results (summary, insights, chart_data, analysis,
table_data, total_events and sampled_events alike). -/
theorem C9_top_n_no_effect :
    ∀ (sample : List Event) (pq : ParsedQuery) (t : Nat) (now : Int),
    processQuery sample { pq with entities := { pq.entities with top_n := t } } now
      = processQuery sample pq now := by
  intro sample pq t now
  cases pq with
  | mk intent entities chart_types original_query =>
    cases entities with
    | mk tr sv tn co et => rfl

/-- C10: the Entity Extractor never produces an event_type entity, so
in the natural-language pipeline the event-type equality branch of the
Event Filter is unreachable: filtering with extracted entities equals
the pipeline consisting of only the time, severity and country
stages. -/
theorem C10_event_type_branch_unreachable :
    ∀ (q : List Char) (sample : List Event) (now : Int),
    (extractEntities q).event_type = none
    ∧ getFilteredData sample (extractEntities q) now =
        applyEq (fun e => e.country) (extractEntities q).country
          (applyEq (fun e => e.severity) (extractEntities q).severity
            (filterByTime sample (extractEntities q).time_range now)) :=
  fun _ _ _ => ⟨rfl, rfl⟩

/-- C1 counterexample: the claim says each of the five distributions
is capped at 10 entries, but the countries distribution of a set with
11 distinct country codes has 11 entries (the source applies head(10)
only to event_type, user and source_ip). -/
theorem C1_counterexample_countries_uncapped :
    10 < (analyzeEvents c1Events pqGeneral).countries.length := by decide

/-- C1 (amended): every distribution is sorted in descending order of
count; the event_type, user and source_ip distributions are truncated
to at most 10 entries, while the severity and country distributions
are returned in full, one entry per distinct value, with no cap and no
aggregation into an other bucket. -/
theorem C1_distribution_caps_and_order : ∀ (events : List Event) (pq : ParsedQuery),
    (analyzeEvents events pq).event_types.length ≤ 10
    ∧ (analyzeEvents events pq).top_users.length ≤ 10
    ∧ (analyzeEvents events pq).top_source_ips.length ≤ 10
    ∧ (analyzeEvents events pq).event_types.Pairwise (fun a b => b.2 ≤ a.2)
    ∧ (analyzeEvents events pq).severity_distribution.Pairwise (fun a b => b.2 ≤ a.2)
    ∧ (analyzeEvents events pq).top_users.Pairwise (fun a b => b.2 ≤ a.2)
    ∧ (analyzeEvents events pq).top_source_ips.Pairwise (fun a b => b.2 ≤ a.2)
    ∧ (analyzeEvents events pq).countries.Pairwise (fun a b => b.2 ≤ a.2)
    ∧ (analyzeEvents events pq).severity_distribution.length
        = (dedupFirst (events.map (fun e => e.severity))).length
    ∧ (analyzeEvents events pq).countries.length
        = (dedupFirst (events.map (fun e => e.country))).length := by
  intro events pq
  cases events with
  | nil =>
    refine ⟨?_, ?_, ?_, ?_, ?_, ?_, ?_, ?_, ?_, ?_⟩ <;> simp [analyzeEvents, dedupFirst]
  | cons e0 es =>
    refine ⟨?_, ?_, ?_, ?_, ?_, ?_, ?_, ?_, ?_, ?_⟩
    · show ((valueCounts (fun e => e.event_type) (e0 :: es)).take 10).length ≤ 10
      exact List.length_take_le 10 _
    · show ((valueCounts (fun e => e.user) (e0 :: es)).take 10).length ≤ 10
      exact List.length_take_le 10 _
    · show ((valueCounts (fun e => e.source_ip) (e0 :: es)).take 10).length ≤ 10
      exact List.length_take_le 10 _
    · show ((valueCounts (fun e => e.event_type) (e0 :: es)).take 10).Pairwise (fun a b => b.2 ≤ a.2)
      exact List.Pairwise.sublist (List.take_sublist 10 _) (valueCounts_sorted _ _)
    · show (valueCounts (fun e => e.severity) (e0 :: es)).Pairwise (fun a b => b.2 ≤ a.2)
      exact valueCounts_sorted _ _
    · show ((valueCounts (fun e => e.user) (e0 :: es)).take 10).Pairwise (fun a b => b.2 ≤ a.2)
      exact List.Pairwise.sublist (List.take_sublist 10 _) (valueCounts_sorted _ _)
    · show ((valueCounts (fun e => e.source_ip) (e0 :: es)).take 10).Pairwise (fun a b => b.2 ≤ a.2)
      exact List.Pairwise.sublist (List.take_sublist 10 _) (valueCounts_sorted _ _)
    · show (valueCounts (fun e => e.country) (e0 :: es)).Pairwise (fun a b => b.2 ≤ a.2)
      exact valueCounts_sorted _ _
    · exact valueCounts_length _ _
    · exact valueCounts_length _ _

/-- C4: in the brute_force sub-analysis a source_ip appears in the
suspicious mapping exactly when it has strictly more than 5
failed_login or brute_force_attempt events; the mapping has no
repeated key, suspicious_ips_count is its size, total_attempts is the
count of failed_login/brute_force_attempt events; and on a concrete
set an address with 6 such events is flagged while one with 5 is
not. -/
theorem C4_brute_force_threshold : ∀ events : List Event,
    (analyzeBruteForce events).total_attempts
        = (events.filter (fun e =>
            decide (e.event_type = "failed_login" ∨ e.event_type = "brute_force_attempt"))).length
    ∧ (analyzeBruteForce events).suspicious_ips_count
        = (analyzeBruteForce events).suspicious_ips.length
    ∧ ((analyzeBruteForce events).suspicious_ips.map Prod.fst).Nodup
    ∧ (∀ (ip : String) (c : Nat),
        (ip, c) ∈ (analyzeBruteForce events).suspicious_ips ↔
          (5 < c ∧ c = ((events.filter (fun e =>
              decide (e.event_type = "failed_login" ∨ e.event_type = "brute_force_attempt"))).filter
                (fun e => decide (e.source_ip = ip))).length))
    ∧ analyzeBruteForce c4Events =
        { suspicious_ips_count := 1, total_attempts := 11,
          suspicious_ips := [("1.1.1.1", 6)] } := by
  intro events
  refine ⟨rfl, rfl, ?_, ?_, by decide⟩
  · have hperm := sortKeysAsc_perm (countOcc (fun e => e.source_ip)
      (events.filter (fun e =>
        decide (e.event_type = "failed_login" ∨ e.event_type = "brute_force_attempt"))))
    have hnd : ((countOcc (fun e => e.source_ip)
        (events.filter (fun e =>
          decide (e.event_type = "failed_login" ∨ e.event_type = "brute_force_attempt")))).map
            Prod.fst).Nodup := by
      rw [keys_countOcc]
      exact nodup_dedupFirst _
    have hnd2 := ((hperm.map Prod.fst).nodup_iff).mpr hnd
    exact List.Nodup.sublist (List.Sublist.map Prod.fst (List.filter_sublist _)) hnd2
  · intro ip c
    have hperm := sortKeysAsc_perm (countOcc (fun e => e.source_ip)
      (events.filter (fun e =>
        decide (e.event_type = "failed_login" ∨ e.event_type = "brute_force_attempt"))))
    constructor
    · intro h
      have h2 := List.mem_filter.mp h
      have h3 := (mem_countOcc _ _ _ _).mp (hperm.mem_iff.mp h2.1)
      exact ⟨of_decide_eq_true h2.2, h3.2⟩
    · rintro ⟨h5, hc⟩
      refine List.mem_filter.mpr ⟨hperm.mem_iff.mpr ((mem_countOcc _ _ _ _).mpr ⟨?_, hc⟩),
        decide_eq_true h5⟩
      have hpos : 0 < ((events.filter (fun e =>
          decide (e.event_type = "failed_login" ∨ e.event_type = "brute_force_attempt"))).filter
            (fun e => decide (e.source_ip = ip))).length := by omega
      obtain ⟨e, he⟩ := List.exists_mem_of_length_pos hpos
      have he2 := List.mem_filter.mp he
      exact List.mem_map.mpr ⟨e, he2.1, of_decide_eq_true he2.2⟩

/-- C5: for every event collection, entities value and evaluation of
now, the Event Filter returns a subsequence of its input (relative
order preserved) whose events all lie inside the computed inclusive
[start, end] window and match every supplied equality filter; and
filtering that output again with the same entities and the same now
returns it unchanged. -/
theorem C5_filter_window_and_idempotence :
    ∀ (sample : List Event) (e : Entities) (now : Int),
    List.Sublist (getFilteredData sample e now) sample
    ∧ (∀ ev ∈ getFilteredData sample e now,
        ((timeWindow e.time_range now).1 ≤ ev.timestamp
          ∧ ev.timestamp ≤ (timeWindow e.time_range now).2)
        ∧ (∀ s, e.severity = some s → s ≠ "" → ev.severity = s)
        ∧ (∀ c, e.country = some c → c ≠ "" → ev.country = c)
        ∧ (∀ t, e.event_type = some t → t ≠ "" → ev.event_type = t))
    ∧ getFilteredData (getFilteredData sample e now) e now
        = getFilteredData sample e now := by
  intro sample e now
  have hmem : ∀ ev ∈ getFilteredData sample e now,
      (((timeWindow e.time_range now).1 ≤ ev.timestamp
        ∧ ev.timestamp ≤ (timeWindow e.time_range now).2)
       ∧ (∀ s, e.severity = some s → s ≠ "" → ev.severity = s)
       ∧ (∀ c, e.country = some c → c ≠ "" → ev.country = c)
       ∧ (∀ t, e.event_type = some t → t ≠ "" → ev.event_type = t)) := by
    intro ev hev
    have h3 := mem_applyEq (fun x => x.event_type) e.event_type _ ev hev
    have h2 := mem_applyEq (fun x => x.country) e.country _ ev h3.1
    have h1 := mem_applyEq (fun x => x.severity) e.severity _ ev h2.1
    have h0 := mem_filterByTime sample e.time_range now ev h1.1
    exact ⟨⟨h0.2.1, h0.2.2⟩, h1.2, h2.2, h3.2⟩
  refine ⟨?_, hmem, ?_⟩
  · exact List.Sublist.trans (applyEq_sublist _ _ _)
      (List.Sublist.trans (applyEq_sublist _ _ _)
        (List.Sublist.trans (applyEq_sublist _ _ _) (List.filter_sublist _)))
  · have t1 : filterByTime (getFilteredData sample e now) e.time_range now
        = getFilteredData sample e now :=
      filterByTime_eq_self _ _ _ (fun ev hev => (hmem ev hev).1)
    have t2 : applyEq (fun x => x.severity) e.severity (getFilteredData sample e now)
        = getFilteredData sample e now :=
      applyEq_eq_self _ _ _ (fun ev hev => (hmem ev hev).2.1)
    have t3 : applyEq (fun x => x.country) e.country (getFilteredData sample e now)
        = getFilteredData sample e now :=
      applyEq_eq_self _ _ _ (fun ev hev => (hmem ev hev).2.2.1)
    have t4 : applyEq (fun x => x.event_type) e.event_type (getFilteredData sample e now)
        = getFilteredData sample e now :=
      applyEq_eq_self _ _ _ (fun ev hev => (hmem ev hev).2.2.2)
    show applyEq (fun x => x.event_type) e.event_type
        (applyEq (fun x => x.country) e.country
          (applyEq (fun x => x.severity) e.severity
            (filterByTime (getFilteredData sample e now) e.time_range now)))
      = getFilteredData sample e now
    rw [t1, t2, t3, t4]

/-- C6: the Intent Classifier returns the first intent, in declaration
order, having any pattern that matches the lower-cased text, and
general_search when no pattern of any intent matches; in particular
the text failed login last 5 hours classifies as failed_logins. -/
theorem C6_intent_first_match : ∀ q : List Char,
    ((∀ ip ∈ intentPatterns, ∀ p ∈ ip.2, reSearch p q = none) →
        detectIntent q = "general_search")
    ∧ (∀ (pre : List (String × List Pat)) (ip : String × List Pat)
          (post : List (String × List Pat)),
        intentPatterns = pre ++ ip :: post →
        (∀ jp ∈ pre, ∀ p ∈ jp.2, reSearch p q = none) →
        (∃ p ∈ ip.2, (reSearch p q).isSome = true) →
        detectIntent q = ip.1)
    ∧ detectIntent ("failed login last 5 hours".toList) = "failed_logins" := by
  intro q
  refine ⟨?_, ?_, by decide⟩
  · intro h
    have h0 : firstSome
        (fun ip => if ip.2.any (fun p => (reSearch p q).isSome) then some ip.1 else none)
        intentPatterns = none := by
      apply firstSome_eq_none
      intro ip hip
      have ha : ip.2.any (fun p => (reSearch p q).isSome) = false := by
        rw [List.any_eq_false]
        intro p hp
        rw [h ip hip p hp]
        simp
      simp [ha]
    rw [detectIntent, h0]
    rfl
  · intro pre ip post htab hpre hmatch
    have hip : (if ip.2.any (fun p => (reSearch p q).isSome) then some ip.1 else none)
        = some ip.1 := by
      have ha : ip.2.any (fun p => (reSearch p q).isSome) = true :=
        List.any_eq_true.mpr hmatch
      simp [ha]
    have hpre2 : ∀ jp ∈ pre,
        (fun jp : String × List Pat =>
          if jp.2.any (fun p => (reSearch p q).isSome) then some jp.1 else none) jp
          = none := by
      intro jp hjp
      have ha : jp.2.any (fun p => (reSearch p q).isSome) = false := by
        rw [List.any_eq_false]
        intro p hp
        rw [hpre jp hjp p hp]
        simp
      simp [ha]
    rw [detectIntent, htab, firstSome_append_some _ pre ip post ip.1 hpre2 hip]
    rfl

/-- C7: the Entity Extractor is total and returns the documented
default for each unmatched category (time_range hours 24 — always
populated, severity none, top_n 10, country none) and, for a matched
category, the value of the first matching pattern with its numeric
capture parsed as an integer; for the text top 20 users from india it
returns top_n 20 and country IN. -/
theorem C7_entity_extraction : ∀ q : List Char,
    ((∀ pu ∈ timeRangePatterns, reSearch pu.1 q = none) →
        (extractEntities q).time_range = { unit := "hours", value := 24 })
    ∧ ((∀ ps ∈ severityPatterns, reSearch ps.1 q = none) →
        (extractEntities q).severity = none)
    ∧ ((∀ pc ∈ countPatterns, reSearch pc.1 q = none) →
        (extractEntities q).top_n = 10)
    ∧ ((∀ pc ∈ countryPatterns, reSearch pc.1 q = none) →
        (extractEntities q).country = none)
    ∧ (∀ pre pv post, severityPatterns = pre ++ pv :: post →
        (∀ ps ∈ pre, reSearch ps.1 q = none) → (reSearch pv.1 q).isSome = true →
        (extractEntities q).severity = some pv.2)
    ∧ (∀ pre pv post, countryPatterns = pre ++ pv :: post →
        (∀ pc ∈ pre, reSearch pc.1 q = none) → (reSearch pv.1 q).isSome = true →
        (extractEntities q).country = some pv.2)
    ∧ (∀ pre pv post n, countPatterns = pre ++ pv :: post →
        (∀ pc ∈ pre, reSearch pc.1 q = none) → reSearch pv.1 q = some (some n) →
        (extractEntities q).top_n = n)
    ∧ (∀ pre pv post n, timeRangePatterns = pre ++ pv :: post →
        (∀ pu ∈ pre, reSearch pu.1 q = none) → reSearch pv.1 q = some (some n) →
        (pv.2 = "hours" ∨ pv.2 = "days" ∨ pv.2 = "weeks") →
        (extractEntities q).time_range = { unit := pv.2, value := n })
    ∧ extractEntities ("top 20 users from india".toList) =
        { time_range := { unit := "hours", value := 24 }, severity := none,
          top_n := 20, country := some "IN", event_type := none } := by
  intro q
  refine ⟨?_, ?_, ?_, ?_, ?_, ?_, ?_, ?_, by decide⟩
  · intro h
    have h0 : firstSome (fun pu => (reSearch pu.1 q).map (fun cap => (pu.2, cap)))
        timeRangePatterns = none :=
      firstSome_eq_none _ _ (fun pu hpu => by rw [h pu hpu]; rfl)
    simp [extractEntities, h0]
  · intro h
    have h0 : firstSome
        (fun ps => if (reSearch ps.1 q).isSome then some ps.2 else none)
        severityPatterns = none :=
      firstSome_eq_none _ _ (fun ps hps => by rw [h ps hps]; rfl)
    simp [extractEntities, h0]
  · intro h
    have h0 : firstSome (fun pc => reSearch pc.1 q) countPatterns = none :=
      firstSome_eq_none _ _ (fun pc hpc => h pc hpc)
    simp [extractEntities, h0]
  · intro h
    have h0 : firstSome
        (fun pc => if (reSearch pc.1 q).isSome then some pc.2 else none)
        countryPatterns = none :=
      firstSome_eq_none _ _ (fun pc hpc => by rw [h pc hpc]; rfl)
    simp [extractEntities, h0]
  · intro pre pv post htab hpre hs
    have h0 : firstSome
        (fun ps => if (reSearch ps.1 q).isSome then some ps.2 else none)
        severityPatterns = some pv.2 := by
      rw [htab]
      exact firstSome_append_some _ pre pv post pv.2
        (fun ps hps => by rw [hpre ps hps]; rfl) (by simp [hs])
    simp [extractEntities, h0]
  · intro pre pv post htab hpre hs
    have h0 : firstSome
        (fun pc => if (reSearch pc.1 q).isSome then some pc.2 else none)
        countryPatterns = some pv.2 := by
      rw [htab]
      exact firstSome_append_some _ pre pv post pv.2
        (fun pc hpc => by rw [hpre pc hpc]; rfl) (by simp [hs])
    simp [extractEntities, h0]
  · intro pre pv post n htab hpre hval
    have h0 : firstSome (fun pc => reSearch pc.1 q) countPatterns = some (some n) := by
      rw [htab]
      exact firstSome_append_some _ pre pv post (some n) (fun pc hpc => hpre pc hpc) hval
    simp [extractEntities, h0]
  · intro pre pv post n htab hpre hval hunit
    have h0 : firstSome (fun pu => (reSearch pu.1 q).map (fun cap => (pu.2, cap)))
        timeRangePatterns = some (pv.2, some n) := by
      rw [htab]
      exact firstSome_append_some _ pre pv post (pv.2, some n)
        (fun pu hpu => by rw [hpre pu hpu]; rfl) (by rw [hval]; rfl)
    simp only [extractEntities, h0]
    rw [if_pos hunit]
    rfl

/-- C8: when the first matching time-range pattern is past week or
past month, the extractor records unit last_week or last_month with
value 1; the Event Filter recognizes neither unit, so its window is
the default last 24 hours, identical to the window of a last-24-hours
query. -/
theorem C8_past_week_falls_back_to_24h :
    ∀ (q : List Char) (now : Int) (events : List Event),
    ((∀ pu ∈ timeRangePatterns.take 5, reSearch pu.1 q = none) →
      (reSearch [rlit "past", Tok.ws1, rlit "week"] q).isSome = true →
      (extractEntities q).time_range = { unit := "last_week", value := 1 })
    ∧ ((∀ pu ∈ timeRangePatterns.take 6, reSearch pu.1 q = none) →
      (reSearch [rlit "past", Tok.ws1, rlit "month"] q).isSome = true →
      (extractEntities q).time_range = { unit := "last_month", value := 1 })
    ∧ timeWindow { unit := "last_week", value := 1 } now
        = timeWindow { unit := "hours", value := 24 } now
    ∧ timeWindow { unit := "last_month", value := 1 } now
        = timeWindow { unit := "hours", value := 24 } now
    ∧ filterByTime events { unit := "last_week", value := 1 } now
        = filterByTime events { unit := "hours", value := 24 } now := by
  intro q now events
  have hw : timeWindow { unit := "last_week", value := 1 } now
      = timeWindow { unit := "hours", value := 24 } now := by
    show (now - 3600 * 24, now) = (now - 3600 * ((24 : Nat) : Int), now)
    norm_num
  have hm : timeWindow { unit := "last_month", value := 1 } now
      = timeWindow { unit := "hours", value := 24 } now := by
    show (now - 3600 * 24, now) = (now - 3600 * ((24 : Nat) : Int), now)
    norm_num
  refine ⟨?_, ?_, hw, hm, ?_⟩
  · intro hpre hs
    obtain ⟨cap, hcap⟩ := Option.isSome_iff_exists.mp hs
    have h0 : firstSome (fun pu => (reSearch pu.1 q).map (fun c => (pu.2, c)))
        timeRangePatterns = some ("last_week", cap) := by
      have htab : timeRangePatterns = timeRangePatterns.take 5 ++
          ([rlit "past", Tok.ws1, rlit "week"], "last_week") ::
            [([rlit "past", Tok.ws1, rlit "month"], "last_month")] := rfl
      rw [htab]
      exact firstSome_append_some _ _ _ _ ("last_week", cap)
        (fun pu hpu => by rw [hpre pu hpu]; rfl) (by rw [hcap]; rfl)
    simp only [extractEntities, h0]
    rw [if_neg (by decide)]
  · intro hpre hs
    obtain ⟨cap, hcap⟩ := Option.isSome_iff_exists.mp hs
    have h0 : firstSome (fun pu => (reSearch pu.1 q).map (fun c => (pu.2, c)))
        timeRangePatterns = some ("last_month", cap) := by
      have htab : timeRangePatterns = timeRangePatterns.take 6 ++
          ([rlit "past", Tok.ws1, rlit "month"], "last_month") :: [] := rfl
      rw [htab]
      exact firstSome_append_some _ _ _ _ ("last_month", cap)
        (fun pu hpu => by rw [hpre pu hpu]; rfl) (by rw [hcap]; rfl)
    simp only [extractEntities, h0]
    rw [if_neg (by decide)]
  · simp only [filterByTime, hw]

theorem generateInsights_india (a : Analysis) (pq : ParsedQuery)
    (h0 : ¬ a.total_events = 0) :
    ((∃ i ∈ generateInsights a pq, i.title = "High Activity from India") ↔
      100 < (a.geographic_analysis.map (fun g => g.india_events)).getD 0)
    ∧ (∀ i ∈ generateInsights a pq, i.title = "High Activity from India" →
        i.type = "info"
        ∧ i.message = "Significant security events ("
            ++ toString ((a.geographic_analysis.map (fun g => g.india_events)).getD 0)
            ++ ") originating from India.") := by
  simp only [generateInsights, if_neg h0]
  split_ifs with h1 h2 h3 h4 <;>
    simp_all [List.mem_append, List.mem_singleton]

/-- C2 counterexample: a filtered set of 101 India events (strictly
more than 100) analyzed under a non-geographic intent yields no
insights at all, in particular none titled High Activity from India,
against the claim that the count alone forces the insight. -/
theorem C2_counterexample_no_insight_without_geo_intent :
    100 < ((List.replicate 101 inEv).filter (fun e => decide (e.country = "IN"))).length
    ∧ generateInsights (analyzeEvents (List.replicate 101 inEv) pqGeneral) pqGeneral
        = [] := by
  constructor
  · decide
  · decide

/-- C2 (amended): the info insight titled High Activity from India is
produced exactly when the parsed query's intent is geographic_analysis
and the filtered set has strictly more than 100 events with country
code IN; whenever present it is of type info and cites that count.
(For at most 100 IN events — or any other intent — it never
appears.) -/
theorem C2_india_insight_with_geo_intent :
    ∀ (events : List Event) (pq : ParsedQuery),
    ((∃ i ∈ generateInsights (analyzeEvents events pq) pq,
        i.title = "High Activity from India") ↔
      (pq.intent = "geographic_analysis"
        ∧ 100 < (events.filter (fun e => decide (e.country = "IN"))).length))
    ∧ (∀ i ∈ generateInsights (analyzeEvents events pq) pq,
        i.title = "High Activity from India" →
        i.type = "info"
        ∧ i.message = "Significant security events ("
            ++ toString ((events.filter (fun e => decide (e.country = "IN"))).length)
            ++ ") originating from India.") := by
  intro events pq
  cases events with
  | nil => simp [analyzeEvents, generateInsights]
  | cons e0 es =>
    have h0 : ¬ (analyzeEvents (e0 :: es) pq).total_events = 0 := by
      show ¬ (e0 :: es).length = 0
      simp
    have hmain := generateInsights_india (analyzeEvents (e0 :: es) pq) pq h0
    have hgeo : (analyzeEvents (e0 :: es) pq).geographic_analysis
        = if pq.intent = "geographic_analysis"
            then some (analyzeGeographic (e0 :: es)) else none := rfl
    have hindia : (analyzeGeographic (e0 :: es)).india_events
        = ((e0 :: es).filter (fun e => decide (e.country = "IN"))).length := rfl
    by_cases hint : pq.intent = "geographic_analysis"
    · rw [hgeo, if_pos hint] at hmain
      simp only [Option.map_some', Option.getD_some, hindia] at hmain
      refine ⟨?_, hmain.2⟩
      rw [hmain.1]
      constructor
      · intro h
        exact ⟨hint, h⟩
      · rintro ⟨_, h⟩
        exact h
    · rw [hgeo, if_neg hint] at hmain
      simp only [Option.map_none', Option.getD_none] at hmain
      refine ⟨?_, ?_⟩
      · constructor
        · intro hex
          exact absurd (hmain.1.mp hex) (by omega)
        · rintro ⟨hh, _⟩
          exact absurd hh hint
      · intro i hi ht
        exact absurd (hmain.1.mp ⟨i, hi, ht⟩) (by omega)

end AskSIEM
